import Mathlib

/-!
Shallow embedding of the kosix-api data-source slice:
`app/schemas/data_source.py`, `app/controllers/data_source_controller.py`
and `app/routes/data_sources.py`.

Conventions of the embedding:
* UUIDs are modelled as `Nat` identifiers.
* A JSON config mapping (`dict` in Python) is an association list
  `List (String × Value)` with unique keys in practice; lookups take the
  first matching key, as a `dict` access would.
* Pydantic validation of a config class is a function `Config → Option C`
  returning `none` exactly when pydantic would raise `ValidationError`.
  Lax coercions of pydantic (e.g. the string "1" accepted for an int
  field) are not modelled: each field requires the matching `Value`
  constructor.
* Database state is a pure `DB` structure; controller methods are
  functions `DB → ... → Except ApiError (result × DB)`.  An uncommitted
  session is discarded when an exception propagates, so an operation that
  raises before `db.commit()` leaves the state unchanged: in the
  embedding this is an `Except.error` carrying no new state.
-/

set_option autoImplicit false

namespace Kosix

/-- A JSON scalar value appearing in a config mapping. -/
inductive Value where
  | str (s : String)
  | int (n : Int)
  | bool (b : Bool)
  | null
deriving DecidableEq, Repr

/-- A config mapping (Python `dict`), keys unique in practice. -/
abbrev Config := List (String × Value)

/-- First-match key lookup, as Python `config[k]` / `k in config`. -/
def configLookup (c : Config) (k : String) : Option Value :=
  (c.find? (fun kv => kv.1 = k)).map (·.2)

/-- `data_source.py` `DataSourceType(str, Enum)`. -/
inductive DataSourceType where
  | postgresql
  | mysql
  | oracle
deriving DecidableEq, Repr

/-- `DataSourceType(s)` on a raw string tag: `ValueError` for unknown tags. -/
def parseDataSourceType (s : String) : Option DataSourceType :=
  if s = "postgresql" then some .postgresql
  else if s = "mysql" then some .mysql
  else if s = "oracle" then some .oracle
  else none

/-- `data_source.py` `DataSourceStatus(str, Enum)`. -/
inductive DataSourceStatus where
  | active
  | inactive
  | error
  | pending
deriving DecidableEq, Repr

/-- `account.py` `AccountRole(str, Enum)`. -/
inductive AccountRole where
  | owner
  | manager
  | admin
  | user
deriving DecidableEq, Repr

/- ----------------------------------------------------------------
   Pydantic field helpers.  Each mirrors one `Field(...)` pattern
   from `BaseDataSourceConfig` and the per-type config classes.
   ---------------------------------------------------------------- -/

/-- Required string field with `min_length`/`max_length` bounds. -/
def reqStr (c : Config) (k : String) (lo hi : Nat) : Option String :=
  match configLookup c k with
  | some (.str s) => if lo ≤ s.length ∧ s.length ≤ hi then some s else none
  | _ => none

/-- Required string field with only `min_length` (the `password` field). -/
def reqStrMin (c : Config) (k : String) (lo : Nat) : Option String :=
  match configLookup c k with
  | some (.str s) => if lo ≤ s.length then some s else none
  | _ => none

/-- Required int field with exclusive-low/inclusive-high bounds
(`gt=lo-1, le=hi` written as `lo ≤ n ≤ hi`). -/
def reqInt (c : Config) (k : String) (lo hi : Int) : Option Int :=
  match configLookup c k with
  | some (.int n) => if lo ≤ n ∧ n ≤ hi then some n else none
  | _ => none

/-- Optional bool field with a default (`ssl: bool = Field(default=False)`). -/
def optBool (c : Config) (k : String) (d : Bool) : Option Bool :=
  match configLookup c k with
  | none => some d
  | some (.bool b) => some b
  | _ => none

/-- Optional int field with default and `ge`/`le` bounds (`connect_timeout`). -/
def optInt (c : Config) (k : String) (d lo hi : Int) : Option Int :=
  match configLookup c k with
  | none => some d
  | some (.int n) => if lo ≤ n ∧ n ≤ hi then some n else none
  | _ => none

/-- `Optional[str]` field constrained to a fixed pattern set (`ssl_mode`). -/
def optStrEnum (c : Config) (k : String) (allowed : List String) :
    Option (Option String) :=
  match configLookup c k with
  | none => some none
  | some .null => some none
  | some (.str s) => if s ∈ allowed then some (some s) else none
  | _ => none

/-- `Optional[str]` field with a `max_length` bound (`application_name`). -/
def optStrMax (c : Config) (k : String) (hi : Nat) : Option (Option String) :=
  match configLookup c k with
  | none => some none
  | some .null => some none
  | some (.str s) => if s.length ≤ hi then some (some s) else none
  | _ => none

/-- Non-optional string field with a default and `max_length` (`charset`). -/
def optStrDefault (c : Config) (k : String) (d : String) (hi : Nat) :
    Option String :=
  match configLookup c k with
  | none => some d
  | some (.str s) => if s.length ≤ hi then some s else none
  | _ => none

/-- `PostgreSQLConfig` (fields of `BaseDataSourceConfig` inlined). -/
structure PostgreSQLConfig where
  host : String
  port : Int
  username : String
  password : String
  database : String
  ssl : Bool
  ssl_mode : Option String
  connect_timeout : Int
  application_name : Option String
deriving DecidableEq, Repr

/-- `MySQLConfig`. -/
structure MySQLConfig where
  host : String
  port : Int
  username : String
  password : String
  database : String
  ssl : Bool
  charset : String
  connect_timeout : Int
deriving DecidableEq, Repr

/-- `OracleConfig`. -/
structure OracleConfig where
  host : String
  port : Int
  username : String
  password : String
  service_name : String
deriving DecidableEq, Repr

/-- The allowed `ssl_mode` pattern alternatives. -/
def sslModes : List String :=
  ["disable", "allow", "prefer", "require", "verify-ca", "verify-full"]

/-- `PostgreSQLConfig(**config)`: pydantic validation of the mapping. -/
def parsePostgreSQLConfig (c : Config) : Option PostgreSQLConfig := do
  let host ← reqStr c "host" 1 255
  let port ← reqInt c "port" 1 65535
  let username ← reqStr c "username" 1 255
  let password ← reqStrMin c "password" 1
  let database ← reqStr c "database" 1 255
  let ssl ← optBool c "ssl" false
  let ssl_mode ← optStrEnum c "ssl_mode" sslModes
  let connect_timeout ← optInt c "connect_timeout" 10 1 300
  let application_name ← optStrMax c "application_name" 255
  pure ⟨host, port, username, password, database, ssl, ssl_mode,
        connect_timeout, application_name⟩

/-- `MySQLConfig(**config)`. -/
def parseMySQLConfig (c : Config) : Option MySQLConfig := do
  let host ← reqStr c "host" 1 255
  let port ← reqInt c "port" 1 65535
  let username ← reqStr c "username" 1 255
  let password ← reqStrMin c "password" 1
  let database ← reqStr c "database" 1 255
  let ssl ← optBool c "ssl" false
  let charset ← optStrDefault c "charset" "utf8mb4" 50
  let connect_timeout ← optInt c "connect_timeout" 10 1 300
  pure ⟨host, port, username, password, database, ssl, charset,
        connect_timeout⟩

/-- `OracleConfig(**config)`. -/
def parseOracleConfig (c : Config) : Option OracleConfig := do
  let host ← reqStr c "host" 1 255
  let port ← reqInt c "port" 1 65535
  let username ← reqStr c "username" 1 255
  let password ← reqStrMin c "password" 1
  let service_name ← reqStr c "service_name" 1 255
  pure ⟨host, port, username, password, service_name⟩

/-- The validated result of `validate_config`, one variant per
`CONFIG_CLASS_MAP` entry. -/
inductive ValidatedConfig where
  | pg (c : PostgreSQLConfig)
  | my (c : MySQLConfig)
  | ora (c : OracleConfig)
deriving DecidableEq, Repr

/-- `validate_config(data_source_type, config)`: dispatch through
`CONFIG_CLASS_MAP` and validate; `none` is a raised `ValidationError`. -/
def validate_config (t : DataSourceType) (c : Config) :
    Option ValidatedConfig :=
  match t with
  | .postgresql => (parsePostgreSQLConfig c).map .pg
  | .mysql => (parseMySQLConfig c).map .my
  | .oracle => (parseOracleConfig c).map .ora

/-- `validate_config` reached from a raw string type tag, as when
`DataSourceType(value)` is built from untrusted input: an unknown tag
raises before any schema is consulted. -/
def validateConfigStr (tag : String) (c : Config) : Option ValidatedConfig :=
  (parseDataSourceType tag).bind (fun t => validate_config t c)

/-- The per-entry effect of `masked["password"] = "********"`. -/
def maskEntry (kv : String × Value) : String × Value :=
  if kv.1 = "password" then (kv.1, Value.str "********") else kv

/-- `mask_config_password(config)`: a copy with `password` replaced by the
fixed mask when the key is present. -/
def mask_config_password (c : Config) : Config :=
  if (configLookup c "password").isSome then c.map maskEntry else c

/- ----------------------------------------------------------------
   Data model (`models/data_source.py`, `models/team.py`,
   `models/account.py`) and database state.
   ---------------------------------------------------------------- -/

/-- A `data_sources` row.  `created_by` and `team_id` are nullable
foreign keys; `config` is the JSONB blob as stored. -/
structure DataSource where
  id : Nat
  title : String
  type : DataSourceType
  status : DataSourceStatus
  created_by : Option Nat
  team_id : Option Nat
  config : Config
deriving DecidableEq, Repr

/-- A `teams` row (only the columns this slice reads). -/
structure Team where
  id : Nat
  owner_id : Option Nat
deriving DecidableEq, Repr

/-- Database state visible to the data-source slice.  The membership and
manager relations are the `team_members` / `team_managers` association
tables as (team_id, account_id) pairs. -/
structure DB where
  accounts : List Nat
  teams : List Team
  team_members : List (Nat × Nat)
  team_managers : List (Nat × Nat)
  data_sources : List DataSource
  next_id : Nat
deriving DecidableEq, Repr

/-- An authenticated actor: account id plus global role. -/
structure Actor where
  id : Nat
  role : AccountRole
deriving DecidableEq, Repr

/-- The failure modes the slice surfaces (HTTP status in the routes).
`validation` is a pydantic `ValidationError` propagating uncaught. -/
inductive ApiError where
  | conflict
  | notFound
  | forbidden
  | validation
deriving DecidableEq, Repr

/-- `DataSourceCreate` after request parsing (no `status` field exists
on the create schema). -/
structure DataSourceCreate where
  title : String
  type : DataSourceType
  config : Config
  team_id : Option Nat
deriving DecidableEq, Repr

/-- The `model_validator` on `DataSourceCreate` plus the title field
constraint: a request object that request parsing would admit. -/
def DataSourceCreate.wf (r : DataSourceCreate) : Prop :=
  1 ≤ r.title.length ∧ r.title.length ≤ 255 ∧
    (validate_config r.type r.config).isSome

instance (r : DataSourceCreate) : Decidable r.wf := by
  unfold DataSourceCreate.wf; infer_instance

/-- `DataSourceUpdate`: every field optional; a JSON `null` and an
omitted field both parse to `None`/`none`. -/
structure DataSourceUpdate where
  title : Option String
  status : Option DataSourceStatus
  config : Option Config
  team_id : Option Nat
deriving DecidableEq, Repr

/-- `DataSourceResponse` as built by the controller (timestamps omitted:
the embedding carries no clock). -/
structure DataSourceResponse where
  id : Nat
  title : String
  type : DataSourceType
  status : DataSourceStatus
  created_by : Option Nat
  team_id : Option Nat
  config : Config
deriving DecidableEq, Repr

/-- `DataSourceListItem`: list rows carry no config at all. -/
structure DataSourceListItem where
  id : Nat
  title : String
  type : DataSourceType
  status : DataSourceStatus
  created_by : Option Nat
  team_id : Option Nat
deriving DecidableEq, Repr

/-- Shape a stored row into a `DataSourceResponse` with masked config,
as every controller return site does. -/
def toResponse (ds : DataSource) : DataSourceResponse :=
  ⟨ds.id, ds.title, ds.type, ds.status, ds.created_by, ds.team_id,
   mask_config_password ds.config⟩

/-- Shape a stored row into a `DataSourceListItem`. -/
def toListItem (ds : DataSource) : DataSourceListItem :=
  ⟨ds.id, ds.title, ds.type, ds.status, ds.created_by, ds.team_id⟩

/-- `db.query(DataSource).filter(DataSource.id == i).first()`. -/
def findDataSource (db : DB) (i : Nat) : Option DataSource :=
  db.data_sources.find? (fun ds => ds.id = i)

/-- `db.query(DataSource).filter(DataSource.title == t).first()` used by
the uniqueness checks. -/
def titleExists (db : DB) (t : String) : Bool :=
  db.data_sources.any (fun ds => ds.title = t)

/-- `_get_team_ids_for_account`: union of owned, member and manager team
ids, duplicates removed (`list(set(...))`). -/
def get_team_ids_for_account (db : DB) (account_id : Nat) : List Nat :=
  (((db.teams.filter (fun t => t.owner_id = some account_id)).map (·.id))
    ++ ((db.team_members.filter (fun m => m.2 = account_id)).map (·.1))
    ++ ((db.team_managers.filter (fun m => m.2 = account_id)).map (·.1))).dedup

/- ----------------------------------------------------------------
   Controller operations (`data_source_controller.py`).
   ---------------------------------------------------------------- -/

/-- `DataSourceController.create_data_source`.  Title uniqueness is
checked first (HTTP 400 conflict), then the config is validated against
the declared type; the stored row keeps the raw `request.config` and the
status is unconditionally `pending`. -/
def create_data_source (db : DB) (request : DataSourceCreate)
    (created_by : Nat) : Except ApiError (DataSourceResponse × DB) :=
  if titleExists db request.title then
    .error .conflict
  else if (validate_config request.type request.config).isSome then
    let ds : DataSource :=
      ⟨db.next_id, request.title, request.type, .pending,
       some created_by, request.team_id, request.config⟩
    .ok (toResponse ds,
         { db with data_sources := db.data_sources ++ [ds],
                   next_id := db.next_id + 1 })
  else
    .error .validation

/-- `DataSourceController.get_data_source`. -/
def get_data_source (db : DB) (data_source_id : Nat) :
    Except ApiError DataSourceResponse :=
  match findDataSource db data_source_id with
  | none => .error .notFound
  | some ds => .ok (toResponse ds)

/-- Replace the row with id `i` by `ds` (an ORM mutation + commit). -/
def replaceDataSource (db : DB) (i : Nat) (ds : DataSource) : DB :=
  { db with data_sources :=
      db.data_sources.map (fun old => if old.id = i then ds else old) }

/-- `if request.status: data_source.status = request.status.value` —
every status enum member is a non-empty string, hence truthy. -/
def applyStatus (request : DataSourceUpdate) (ds : DataSource) : DataSource :=
  match request.status with
  | some s => { ds with status := s }
  | none => ds

/-- `if request.team_id is not None: data_source.team_id = request.team_id`. -/
def applyTeam (request : DataSourceUpdate) (ds : DataSource) : DataSource :=
  match request.team_id with
  | some t => { ds with team_id := some t }
  | none => ds

/-- The status and team steps of the update, run in source order. -/
def applyStatusTeam (request : DataSourceUpdate) (ds : DataSource) :
    DataSource :=
  applyTeam request (applyStatus request ds)

/-- The config step of the update: `if request.config:` skips both a
missing and an empty mapping (Python truthiness); a non-empty mapping is
validated against the record's existing type before being stored. -/
def updateConfigStep (db : DB) (data_source_id : Nat)
    (request : DataSourceUpdate) (ds3 : DataSource) :
    Except ApiError (DataSourceResponse × DB) :=
  match request.config with
  | some c =>
    if c = [] then
      .ok (toResponse ds3, replaceDataSource db data_source_id ds3)
    else if (validate_config ds3.type c).isSome then
      .ok (toResponse { ds3 with config := c },
           replaceDataSource db data_source_id { ds3 with config := c })
    else .error .validation
  | none =>
    .ok (toResponse ds3, replaceDataSource db data_source_id ds3)

/-- `DataSourceController.update_data_source`.  Mirrors the Python
truthiness guards: `if request.title and ...`, `if request.status`,
`if request.team_id is not None`, `if request.config` — so an empty
string title, a `None` team id and an empty config mapping are all
skipped exactly like omitted fields.  A `ValidationError` on the config
propagates before `db.commit()`; `app/db/session.py` is not in the
sources, so per the spec's error design ("rejected before any write",
errors local to one request) the discarded uncommitted session leaves
the store unchanged, which the `Except.error` outcome encodes. -/
def update_data_source (db : DB) (data_source_id : Nat)
    (request : DataSourceUpdate) :
    Except ApiError (DataSourceResponse × DB) :=
  match findDataSource db data_source_id with
  | none => .error .notFound
  | some ds0 =>
    match request.title with
    | some t =>
      if t ≠ "" ∧ t ≠ ds0.title then
        if titleExists db t then .error .conflict
        else updateConfigStep db data_source_id request
               (applyStatusTeam request { ds0 with title := t })
      else updateConfigStep db data_source_id request
             (applyStatusTeam request ds0)
    | none =>
      updateConfigStep db data_source_id request
        (applyStatusTeam request ds0)

/-- `DataSourceController.delete_data_source`. -/
def delete_data_source (db : DB) (data_source_id : Nat) :
    Except ApiError DB :=
  match findDataSource db data_source_id with
  | none => .error .notFound
  | some _ =>
    .ok { db with data_sources :=
            db.data_sources.filter (fun ds => ds.id ≠ data_source_id) }

/-- Does a row pass the optional type filter (`if type_filter:`)? -/
def matchesType (tf : Option DataSourceType) (ds : DataSource) : Bool :=
  match tf with
  | some t => ds.type = t
  | none => true

/-- Does a row pass the optional status filter (`if status_filter:`)? -/
def matchesStatus (sf : Option DataSourceStatus) (ds : DataSource) : Bool :=
  match sf with
  | some s => ds.status = s
  | none => true

/-- `query.offset(skip).limit(limit).all()` shaped into list items. -/
def paginate (l : List DataSource) (skip limit : Nat) :
    List DataSourceListItem :=
  ((l.drop skip).take limit).map toListItem

/-- `DataSourceController.list_data_sources`. -/
def list_data_sources (db : DB) (skip limit : Nat)
    (tf : Option DataSourceType) (sf : Option DataSourceStatus) :
    List DataSourceListItem :=
  paginate ((db.data_sources.filter (matchesType tf)).filter
            (matchesStatus sf)) skip limit

/-- `DataSourceController.get_data_sources_by_creator`. -/
def get_data_sources_by_creator (db : DB) (account_id : Nat)
    (skip limit : Nat) : Except ApiError (List DataSourceListItem) :=
  if account_id ∈ db.accounts then
    .ok (paginate (db.data_sources.filter
          (fun ds => ds.created_by = some account_id)) skip limit)
  else .error .notFound

/-- `DataSourceController.get_data_sources_by_team`. -/
def get_data_sources_by_team (db : DB) (team_id : Nat)
    (skip limit : Nat) : Except ApiError (List DataSourceListItem) :=
  if db.teams.any (fun t => t.id = team_id) then
    .ok (paginate (db.data_sources.filter
          (fun ds => ds.team_id = some team_id)) skip limit)
  else .error .notFound

/-- `DataSourceController.get_data_sources_for_account_teams`. -/
def get_data_sources_for_account_teams (db : DB) (account_id : Nat)
    (skip limit : Nat) : Except ApiError (List DataSourceListItem) :=
  if account_id ∈ db.accounts then
    let team_ids := get_team_ids_for_account db account_id
    if team_ids.isEmpty then .ok []
    else
      .ok (paginate (db.data_sources.filter
            (fun ds => match ds.team_id with
              | some t => t ∈ team_ids
              | none => false)) skip limit)
  else .error .notFound

/-- The base query of `get_my_data_sources`: created-by-me when the
account has no associated teams, else created-by-me OR team-in-my-teams. -/
def myBase (db : DB) (account_id : Nat) : List DataSource :=
  if (get_team_ids_for_account db account_id).isEmpty then
    db.data_sources.filter (fun ds => ds.created_by = some account_id)
  else
    db.data_sources.filter (fun ds =>
      decide (ds.created_by = some account_id) ||
        (match ds.team_id with
         | some t => decide (t ∈ get_team_ids_for_account db account_id)
         | none => false))

/-- `DataSourceController.get_my_data_sources`. -/
def get_my_data_sources (db : DB) (account_id : Nat) (skip limit : Nat)
    (tf : Option DataSourceType) (sf : Option DataSourceStatus) :
    Except ApiError (List DataSourceListItem) :=
  if account_id ∈ db.accounts then
    .ok (paginate (((myBase db account_id).filter (matchesType tf)).filter
          (matchesStatus sf)) skip limit)
  else .error .notFound

/-- The required (no-default) fields of each config class. -/
def requiredKeys : DataSourceType → List String
  | .postgresql => ["host", "port", "username", "password", "database"]
  | .mysql => ["host", "port", "username", "password", "database"]
  | .oracle => ["host", "port", "username", "password", "service_name"]

/-- The string tags `DataSourceType` accepts. -/
def supportedTypeTags : List String := ["postgresql", "mysql", "oracle"]

/-- A postgresql/mysql config mapping supplying exactly the required
fields. -/
def requiredOnlyCommon (host username password database : String)
    (port : Int) : Config :=
  [("host", .str host), ("port", .int port), ("username", .str username),
   ("password", .str password), ("database", .str database)]

/-- An oracle config mapping supplying exactly the required fields. -/
def requiredOnlyOracle (host username password service_name : String)
    (port : Int) : Config :=
  [("host", .str host), ("port", .int port), ("username", .str username),
   ("password", .str password), ("service_name", .str service_name)]

/- ----------------------------------------------------------------
   Route layer (`routes/data_sources.py`).
   ---------------------------------------------------------------- -/

/-- `check_resource_access`: `true` is the `return True` paths, `false`
the fall-through that raises HTTP 403. -/
def check_resource_access (db : DB) (current_user : Actor)
    (resource_owner_id : Option Nat) (team_id : Option Nat) : Bool :=
  if current_user.role = .admin then true
  else if resource_owner_id = some current_user.id then true
  else match team_id with
    | some t => t ∈ get_team_ids_for_account db current_user.id
    | none => false

/-- Route `GET /data-sources/\x7bid\x7d`: fetch (404 on absence), then
`check_resource_access` (403 on denial). -/
def route_get_data_source (db : DB) (current_user : Actor)
    (data_source_id : Nat) : Except ApiError DataSourceResponse := do
  let resp ← get_data_source db data_source_id
  if check_resource_access db current_user resp.created_by resp.team_id then
    pure resp
  else .error .forbidden

/-- Route `PATCH /data-sources/\x7bid\x7d`: fetch, access check, update. -/
def route_update_data_source (db : DB) (current_user : Actor)
    (data_source_id : Nat) (request : DataSourceUpdate) :
    Except ApiError (DataSourceResponse × DB) := do
  let resp ← get_data_source db data_source_id
  if check_resource_access db current_user resp.created_by resp.team_id then
    update_data_source db data_source_id request
  else .error .forbidden

/-- Route `DELETE /data-sources/\x7bid\x7d`: fetch, access check, delete. -/
def route_delete_data_source (db : DB) (current_user : Actor)
    (data_source_id : Nat) : Except ApiError DB := do
  let resp ← get_data_source db data_source_id
  if check_resource_access db current_user resp.created_by resp.team_id then
    delete_data_source db data_source_id
  else .error .forbidden

/- ----------------------------------------------------------------
   Concrete fixtures used by witnesses and counterexamples.
   ---------------------------------------------------------------- -/

/-- The spec's running example config. -/
def pgSampleConfig : Config :=
  [("host", Value.str "db"), ("port", Value.int 5432),
   ("username", Value.str "u"), ("password", Value.str "p"),
   ("database", Value.str "d")]

/-- An empty store with one account. -/
def dbEmpty : DB := ⟨[1, 2], [], [], [], [], 0⟩

/-- The spec's running example create request. -/
def reqSample : DataSourceCreate := ⟨"pg-main", .postgresql, pgSampleConfig, none⟩

/-- The row the sample create stores. -/
def dsSample : DataSource :=
  ⟨0, "pg-main", .postgresql, .pending, some 1, none, pgSampleConfig⟩

/-- The store after the sample create. -/
def dbAfterSample : DB := ⟨[1, 2], [], [], [], [dsSample], 1⟩

/-- A row whose stored password happens to equal the mask string. -/
def dsMaskedPwd : DataSource :=
  ⟨7, "masked", .postgresql, .active, some 1, none,
   [("password", Value.str "********")]⟩

/-- A store holding `dsMaskedPwd`. -/
def dbMaskedPwd : DB := ⟨[1], [], [], [], [dsMaskedPwd], 8⟩

/-- A store where account 1 has no team memberships while account 2's
rows, one of them team-tagged, also exist. -/
def dbNoTeams : DB :=
  ⟨[1, 2], [], [], [],
   [⟨0, "a", .postgresql, .pending, some 1, none, pgSampleConfig⟩,
    ⟨1, "b", .mysql, .active, some 2, some 9, pgSampleConfig⟩], 2⟩

/-- A second create request re-using the sample title with a different
type, config and team. -/
def reqDup : DataSourceCreate := ⟨"pg-main", .mysql, [], some 3⟩

/-- A create request naming a team id that exists nowhere. -/
def reqTeam42 : DataSourceCreate := ⟨"new-ds", .postgresql, pgSampleConfig, some 42⟩

/-- The row `reqTeam42` stores on top of `dbNoTeams`. -/
def dsTeam42 : DataSource :=
  ⟨2, "new-ds", .postgresql, .pending, some 1, some 42, pgSampleConfig⟩

/-- The store after creating `reqTeam42` on `dbNoTeams`. -/
def dbAfterTeam42 : DB :=
  ⟨[1, 2], [], [], [],
   [⟨0, "a", .postgresql, .pending, some 1, none, pgSampleConfig⟩,
    ⟨1, "b", .mysql, .active, some 2, some 9, pgSampleConfig⟩,
    dsTeam42], 3⟩

/-- A postgresql config supplying every optional field with in-bounds
values. -/
def pgFullConfig : Config :=
  [("host", Value.str "db"), ("port", Value.int 5432),
   ("username", Value.str "u"), ("password", Value.str "p"),
   ("database", Value.str "d"), ("ssl", Value.bool true),
   ("ssl_mode", Value.str "require"),
   ("connect_timeout", Value.int 50),
   ("application_name", Value.str "app")]

/-- A mysql config supplying every optional field with in-bounds
values. -/
def myFullConfig : Config :=
  [("host", Value.str "db"), ("port", Value.int 3306),
   ("username", Value.str "u"), ("password", Value.str "p"),
   ("database", Value.str "d"), ("ssl", Value.bool true),
   ("charset", Value.str "latin1"),
   ("connect_timeout", Value.int 20)]

/-- An oracle config with all required fields plus an unrelated extra
key (pydantic ignores extra keys). -/
def oraExtraConfig : Config :=
  [("host", Value.str "db"), ("port", Value.int 1521),
   ("username", Value.str "u"), ("password", Value.str "p"),
   ("service_name", Value.str "orcl"), ("extra", Value.bool true)]

/- ----------------------------------------------------------------
   Shared lemmas about config lookup and masking.
   ---------------------------------------------------------------- -/

theorem configLookup_cons (kv : String × Value) (c : Config) (k : String) :
    configLookup (kv :: c) k
      = if kv.1 = k then some kv.2 else configLookup c k := by
  by_cases h : kv.1 = k <;> simp [configLookup, List.find?, h]

theorem maskEntry_idem (kv : String × Value) :
    maskEntry (maskEntry kv) = maskEntry kv := by
  by_cases h : kv.1 = "password" <;> simp [maskEntry, h]

theorem configLookup_map_maskEntry (c : Config) (k : String) :
    configLookup (c.map maskEntry) k
      = if k = "password" then
          (configLookup c k).map (fun _ => Value.str "********")
        else configLookup c k := by
  induction c with
  | nil => split <;> simp [configLookup]
  | cons kv tl ih =>
    by_cases hk : kv.1 = "password" <;> by_cases hkk : kv.1 = k
    · rw [hk] at hkk
      simp [List.map_cons, maskEntry, hk, configLookup_cons, ← hkk, hk]
    · have hknp : ¬ (k = "password") := fun h => hkk (h ▸ hk)
      have hpnk : ¬ ("password" = k) := fun h => hknp h.symm
      simp [List.map_cons, maskEntry, hk, configLookup_cons, hkk, ih, hknp, hpnk]
    · have hknp : ¬ (k = "password") := fun h => hk (hkk.trans h)
      simp [List.map_cons, maskEntry, hk, configLookup_cons, hkk, ih, hknp]
    · simp [List.map_cons, maskEntry, hk, configLookup_cons, hkk, ih]

theorem mask_lookup_password {c : Config} {v : Value}
    (h : configLookup c "password" = some v) :
    configLookup (mask_config_password c) "password"
      = some (Value.str "********") := by
  simp [mask_config_password, h, configLookup_map_maskEntry]

theorem mask_lookup_other {c : Config} {k : String} (h : k ≠ "password") :
    configLookup (mask_config_password c) k = configLookup c k := by
  unfold mask_config_password
  split
  · simp [configLookup_map_maskEntry, h]
  · rfl

theorem mask_of_no_password {c : Config}
    (h : configLookup c "password" = none) :
    mask_config_password c = c := by
  simp [mask_config_password, h]

theorem mask_idem (c : Config) :
    mask_config_password (mask_config_password c) = mask_config_password c := by
  cases h : configLookup c "password" with
  | none => rw [mask_of_no_password h, mask_of_no_password h]
  | some v =>
    have h1 : mask_config_password c = c.map maskEntry := by
      simp [mask_config_password, h]
    have h2 : configLookup (mask_config_password c) "password"
        = some (Value.str "********") := mask_lookup_password h
    rw [h1] at h2 ⊢
    simp only [mask_config_password, h2, Option.isSome_some, if_pos]
    rw [List.map_map]
    exact List.map_congr_left (fun kv _ => maskEntry_idem kv)

/-- C8: masking is idempotent and total — a config with a `password` key
is masked to the fixed string `"********"` with every other key mapped to
its original value; a config without a `password` key is returned
unchanged; and masking twice equals masking once. -/
theorem mask_config_password_spec :
    (∀ (c : Config) (v : Value), configLookup c "password" = some v →
        configLookup (mask_config_password c) "password"
          = some (Value.str "********"))
  ∧ (∀ (c : Config) (k : String), k ≠ "password" →
        configLookup (mask_config_password c) k = configLookup c k)
  ∧ (∀ c : Config, configLookup c "password" = none →
        mask_config_password c = c)
  ∧ (∀ c : Config,
        mask_config_password (mask_config_password c) = mask_config_password c) :=
  ⟨fun _ _ h => mask_lookup_password h,
   fun _ _ h => mask_lookup_other h,
   fun _ h => mask_of_no_password h,
   mask_idem⟩

/-- Witness for C8 at concrete configs. -/
theorem mask_config_password_spec_witness :
    (configLookup
        (mask_config_password [("password", Value.str "p"), ("host", Value.str "h")])
        "password" = some (Value.str "********"))
  ∧ (configLookup
        (mask_config_password [("password", Value.str "p"), ("host", Value.str "h")])
        "host"
      = configLookup [("password", Value.str "p"), ("host", Value.str "h")] "host")
  ∧ (mask_config_password [("host", Value.str "h")] = [("host", Value.str "h")]) :=
  ⟨mask_config_password_spec.1 _ (Value.str "p") (by decide),
   mask_config_password_spec.2.1 _ "host" (by decide),
   mask_config_password_spec.2.2.1 _ (by decide)⟩

/- ----------------------------------------------------------------
   C1: the single-record access decision.
   ---------------------------------------------------------------- -/

theorem mem_get_team_ids (db : DB) (a t : Nat) :
    t ∈ get_team_ids_for_account db a ↔
      (∃ tm, tm ∈ db.teams ∧ tm.id = t ∧ tm.owner_id = some a)
      ∨ (t, a) ∈ db.team_members
      ∨ (t, a) ∈ db.team_managers := by
  unfold get_team_ids_for_account
  simp only [List.mem_dedup, List.mem_append, List.mem_map, List.mem_filter,
    decide_eq_true_eq, or_assoc]
  constructor
  · rintro (⟨tm, ⟨htm, hown⟩, hid⟩ | ⟨⟨m1, m2⟩, ⟨hm, h2⟩, h1⟩ |
      ⟨⟨m1, m2⟩, ⟨hm, h2⟩, h1⟩)
    · exact .inl ⟨tm, htm, hid, hown⟩
    · subst h1; subst h2; exact .inr (.inl hm)
    · subst h1; subst h2; exact .inr (.inr hm)
  · rintro (⟨tm, htm, hid, hown⟩ | hm | hm)
    · exact .inl ⟨tm, ⟨htm, hown⟩, hid⟩
    · exact .inr (.inl ⟨(t, a), ⟨hm, rfl⟩, rfl⟩)
    · exact .inr (.inr ⟨(t, a), ⟨hm, rfl⟩, rfl⟩)

theorem check_resource_access_iff (db : DB) (u : Actor)
    (owner team : Option Nat) :
    check_resource_access db u owner team = true ↔
      u.role = .admin ∨ owner = some u.id ∨
        ∃ t, team = some t ∧ t ∈ get_team_ids_for_account db u.id := by
  unfold check_resource_access
  by_cases hadm : u.role = .admin
  · simp [hadm]
  · by_cases hown : owner = some u.id
    · simp [hadm, hown]
    · cases team with
      | none => simp [hadm, hown]
      | some t => simp [hadm, hown]

theorem updateConfigStep_error_cases (db : DB) (i : Nat)
    (req : DataSourceUpdate) (ds3 : DataSource) (e : ApiError)
    (h : updateConfigStep db i req ds3 = .error e) : e = .validation := by
  unfold updateConfigStep at h
  split at h
  · split at h
    · exact absurd h (by simp)
    · split at h
      · exact absurd h (by simp)
      · exact (Except.error.inj h).symm
  · exact absurd h (by simp)

theorem update_data_source_error_cases (db : DB) (i : Nat)
    (req : DataSourceUpdate) (e : ApiError)
    (h : update_data_source db i req = .error e) :
    e = .notFound ∨ e = .conflict ∨ e = .validation := by
  unfold update_data_source at h
  split at h
  · exact .inl (Except.error.inj h).symm
  · split at h
    · split at h
      · split at h
        · exact .inr (.inl (Except.error.inj h).symm)
        · exact .inr (.inr (updateConfigStep_error_cases _ _ _ _ _ h))
      · exact .inr (.inr (updateConfigStep_error_cases _ _ _ _ _ h))
    · exact .inr (.inr (updateConfigStep_error_cases _ _ _ _ _ h))

theorem update_data_source_ne_forbidden (db : DB) (i : Nat)
    (req : DataSourceUpdate) :
    update_data_source db i req ≠ .error .forbidden := by
  intro h
  rcases update_data_source_error_cases db i req _ h with h' | h' | h' <;>
    cases h'

theorem delete_data_source_ne_forbidden (db : DB) (i : Nat) :
    delete_data_source db i ≠ .error .forbidden := by
  unfold delete_data_source
  split <;> simp

theorem toResponse_created_by (ds : DataSource) :
    (toResponse ds).created_by = ds.created_by := rfl

theorem toResponse_team_id (ds : DataSource) :
    (toResponse ds).team_id = ds.team_id := rfl

theorem route_get_forbidden_iff (db : DB) (u : Actor) (i : Nat) :
    route_get_data_source db u i = .error .forbidden ↔
      ∃ ds, findDataSource db i = some ds ∧
        check_resource_access db u ds.created_by ds.team_id = false := by
  unfold route_get_data_source get_data_source
  cases h : findDataSource db i with
  | none => simp [h, Bind.bind, Except.bind]
  | some ds =>
    by_cases hc : check_resource_access db u ds.created_by ds.team_id <;>
      simp [h, hc, Bind.bind, Except.bind, Pure.pure, Except.pure,
        toResponse_created_by, toResponse_team_id]

theorem route_update_forbidden_iff (db : DB) (u : Actor) (i : Nat)
    (req : DataSourceUpdate) :
    route_update_data_source db u i req = .error .forbidden ↔
      ∃ ds, findDataSource db i = some ds ∧
        check_resource_access db u ds.created_by ds.team_id = false := by
  unfold route_update_data_source get_data_source
  cases h : findDataSource db i with
  | none => simp [h, Bind.bind, Except.bind]
  | some ds =>
    by_cases hc : check_resource_access db u ds.created_by ds.team_id <;>
      simp [h, hc, Bind.bind, Except.bind, toResponse_created_by,
        toResponse_team_id, update_data_source_ne_forbidden db i req]

theorem route_delete_forbidden_iff (db : DB) (u : Actor) (i : Nat) :
    route_delete_data_source db u i = .error .forbidden ↔
      ∃ ds, findDataSource db i = some ds ∧
        check_resource_access db u ds.created_by ds.team_id = false := by
  unfold route_delete_data_source get_data_source
  cases h : findDataSource db i with
  | none => simp [h, Bind.bind, Except.bind]
  | some ds =>
    by_cases hc : check_resource_access db u ds.created_by ds.team_id <;>
      simp [h, hc, Bind.bind, Except.bind, toResponse_created_by,
        toResponse_team_id, delete_data_source_ne_forbidden db i]

/-- C1: the single-record access decision — admin allowed, then creator
match, then team membership (owner, member or manager of the record's
team), else deny — and the same decision gates the read, update and
delete routes, whose denial surfaces as the forbidden failure. -/
theorem access_decision_spec :
    (∀ (db : DB) (u : Actor) (owner team : Option Nat),
        check_resource_access db u owner team = true ↔
          u.role = .admin ∨ owner = some u.id ∨
            ∃ t, team = some t ∧
              ((∃ tm, tm ∈ db.teams ∧ tm.id = t ∧ tm.owner_id = some u.id)
                ∨ (t, u.id) ∈ db.team_members
                ∨ (t, u.id) ∈ db.team_managers))
  ∧ (∀ (db : DB) (u : Actor) (i : Nat),
        route_get_data_source db u i = .error .forbidden ↔
          ∃ ds, findDataSource db i = some ds ∧
            check_resource_access db u ds.created_by ds.team_id = false)
  ∧ (∀ (db : DB) (u : Actor) (i : Nat) (req : DataSourceUpdate),
        route_update_data_source db u i req = .error .forbidden ↔
          ∃ ds, findDataSource db i = some ds ∧
            check_resource_access db u ds.created_by ds.team_id = false)
  ∧ (∀ (db : DB) (u : Actor) (i : Nat),
        route_delete_data_source db u i = .error .forbidden ↔
          ∃ ds, findDataSource db i = some ds ∧
            check_resource_access db u ds.created_by ds.team_id = false) := by
  refine ⟨fun db u owner team => ?_, route_get_forbidden_iff,
    route_update_forbidden_iff, route_delete_forbidden_iff⟩
  rw [check_resource_access_iff]
  constructor
  · rintro (h | h | ⟨t, ht, hmem⟩)
    · exact .inl h
    · exact .inr (.inl h)
    · exact .inr (.inr ⟨t, ht, (mem_get_team_ids db u.id t).mp hmem⟩)
  · rintro (h | h | ⟨t, ht, hmem⟩)
    · exact .inl h
    · exact .inr (.inl h)
    · exact .inr (.inr ⟨t, ht, (mem_get_team_ids db u.id t).mpr hmem⟩)

/- ----------------------------------------------------------------
   C6: duplicate titles conflict.
   ---------------------------------------------------------------- -/

theorem create_ok_titleExists {db : DB} {req : DataSourceCreate} {uid : Nat}
    {resp : DataSourceResponse} {db1 : DB}
    (h : create_data_source db req uid = .ok (resp, db1)) :
    titleExists db1 req.title = true := by
  unfold create_data_source at h
  by_cases ht : titleExists db req.title
  · simp [ht] at h
  · by_cases hv : (validate_config req.type req.config).isSome
    · simp [ht, hv] at h
      obtain ⟨-, hdb⟩ := h
      subst hdb
      simp [titleExists, List.any_append]
    · simp [ht, hv] at h

/-- C6: once a create with some title succeeds, a second create carrying
the identical title fails with the duplicate-title conflict before any
write, whatever its type, config or team. -/
theorem duplicate_title_create_conflicts
    (db : DB) (req1 req2 : DataSourceCreate) (uid1 uid2 : Nat)
    (resp1 : DataSourceResponse) (db1 : DB)
    (htitle : req2.title = req1.title)
    (h1 : create_data_source db req1 uid1 = .ok (resp1, db1)) :
    create_data_source db1 req2 uid2 = .error .conflict := by
  have ht : titleExists db1 req2.title = true := by
    rw [htitle]; exact create_ok_titleExists h1
  unfold create_data_source
  simp [ht]

/-- Witness for C6: the sample create followed by a same-title create of
different type, config and team. -/
theorem duplicate_title_create_conflicts_witness :
    reqDup.title = reqSample.title
  ∧ create_data_source dbEmpty reqSample 1
      = .ok (toResponse dsSample, dbAfterSample)
  ∧ create_data_source dbAfterSample reqDup 2 = .error .conflict :=
  ⟨rfl, rfl,
   duplicate_title_create_conflicts dbEmpty reqSample reqDup 1 2
     (toResponse dsSample) dbAfterSample rfl rfl⟩

/- ----------------------------------------------------------------
   C10: create never checks that the team exists.
   ---------------------------------------------------------------- -/

/-- C10: the create path reads no team state — its outcome on a store
with any substituted team table is the same outcome (no not-found
failure can arise from the team id), a successful create persists the
team id exactly as given, while the team-scoped list fails with
not-found when the team is absent. -/
theorem create_skips_team_check :
    (∀ (db : DB) (req : DataSourceCreate) (uid : Nat) (ts : List Team),
        create_data_source { db with teams := ts } req uid
          = (create_data_source db req uid).map
              (fun p => (p.1, { p.2 with teams := ts })))
  ∧ (∀ (db : DB) (req : DataSourceCreate) (uid : Nat)
        (resp : DataSourceResponse) (db' : DB),
        create_data_source db req uid = .ok (resp, db') →
          resp.team_id = req.team_id ∧
            ∃ ds, ds ∈ db'.data_sources ∧ ds.id = resp.id ∧
              ds.team_id = req.team_id)
  ∧ (∀ (db : DB) (team_id skip limit : Nat),
        (∀ t ∈ db.teams, t.id ≠ team_id) →
          get_data_sources_by_team db team_id skip limit
            = .error .notFound) := by
  refine ⟨fun db req uid ts => ?_, fun db req uid resp db' h => ?_,
    fun db tid skip limit h => ?_⟩
  · unfold create_data_source
    have e1 : titleExists { db with teams := ts } req.title
        = titleExists db req.title := rfl
    rw [e1]
    by_cases ht : titleExists db req.title
    · simp [ht, Except.map]
    · by_cases hv : (validate_config req.type req.config).isSome
      · simp [ht, hv, Except.map]
      · simp [ht, hv, Except.map]
  · unfold create_data_source at h
    by_cases ht : titleExists db req.title
    · simp [ht] at h
    · by_cases hv : (validate_config req.type req.config).isSome
      · simp [ht, hv] at h
        obtain ⟨hresp, hdb⟩ := h
        subst hresp; subst hdb
        refine ⟨rfl, ⟨db.next_id, req.title, req.type, .pending,
          some uid, req.team_id, req.config⟩, ?_, rfl, rfl⟩
        simp
      · simp [ht, hv] at h
  · have hteam : db.teams.any (fun t => t.id = tid) = false := by
      refine List.any_eq_false.mpr (fun t ht' => ?_)
      simpa using h t ht'
    unfold get_data_sources_by_team
    simp [hteam]

/-- Witness for C10: a create naming the absent team 42 stores the row
with team 42, while the team-scoped list on 42 fails not-found. -/
theorem create_skips_team_check_witness :
    create_data_source dbNoTeams reqTeam42 1
      = .ok (toResponse dsTeam42, dbAfterTeam42)
  ∧ (toResponse dsTeam42).team_id = reqTeam42.team_id
  ∧ (∃ ds, ds ∈ dbAfterTeam42.data_sources ∧ ds.id = (toResponse dsTeam42).id
        ∧ ds.team_id = reqTeam42.team_id)
  ∧ get_data_sources_by_team dbNoTeams 42 0 20 = .error .notFound :=
  ⟨rfl,
   (create_skips_team_check.2.1 dbNoTeams reqTeam42 1 (toResponse dsTeam42)
      dbAfterTeam42 rfl).1,
   (create_skips_team_check.2.1 dbNoTeams reqTeam42 1 (toResponse dsTeam42)
      dbAfterTeam42 rfl).2,
   create_skips_team_check.2.2 dbNoTeams 42 0 20 (by simp [dbNoTeams])⟩

/- ----------------------------------------------------------------
   C9: get_my_data_sources for an account with no teams.
   ---------------------------------------------------------------- -/

theorem get_my_no_teams_eq (db : DB) (acc : Nat)
    (hacc : acc ∈ db.accounts)
    (hteams : get_team_ids_for_account db acc = [])
    (skip limit : Nat) (tf : Option DataSourceType)
    (sf : Option DataSourceStatus) :
    get_my_data_sources db acc skip limit tf sf
      = .ok (paginate (db.data_sources.filter
          (fun ds => decide (ds.created_by = some acc)
            && matchesType tf ds && matchesStatus sf ds)) skip limit) := by
  unfold get_my_data_sources myBase
  rw [if_pos hacc, hteams]
  simp only [List.isEmpty_nil, if_true]
  rw [List.filter_filter, List.filter_filter]
  congr 2
  refine List.filter_congr (fun ds _ => ?_)
  cases h1 : decide (ds.created_by = some acc) <;>
    cases h2 : matchesType tf ds <;>
    cases h3 : matchesStatus sf ds <;> simp [h1, h2, h3]

/-- C9: for an existing account that is owner, member or manager of no
team, `get_my_data_sources` returns exactly its own records narrowed by
the optional type and status filters, and restricting the store to that
account's own records does not change the result. -/
theorem get_my_data_sources_no_teams (db : DB) (acc : Nat)
    (hacc : acc ∈ db.accounts)
    (hteams : get_team_ids_for_account db acc = []) :
    (∀ (skip limit : Nat) (tf : Option DataSourceType)
        (sf : Option DataSourceStatus),
        get_my_data_sources db acc skip limit tf sf
          = .ok (paginate (db.data_sources.filter
              (fun ds => decide (ds.created_by = some acc)
                && matchesType tf ds && matchesStatus sf ds)) skip limit))
  ∧ (∀ (skip limit : Nat) (tf : Option DataSourceType)
        (sf : Option DataSourceStatus),
        get_my_data_sources db acc skip limit tf sf
          = get_my_data_sources
              { db with data_sources := (db.data_sources.filter
                  (fun ds => ds.created_by = some acc)) }
              acc skip limit tf sf) := by
  refine ⟨get_my_no_teams_eq db acc hacc hteams, ?_⟩
  intro skip limit tf sf
  have hacc2 : acc ∈ (DB.mk db.accounts db.teams db.team_members
      db.team_managers (db.data_sources.filter
        (fun ds => ds.created_by = some acc)) db.next_id).accounts := hacc
  have hteams2 : get_team_ids_for_account (DB.mk db.accounts db.teams
      db.team_members db.team_managers (db.data_sources.filter
        (fun ds => ds.created_by = some acc)) db.next_id) acc = [] := hteams
  rw [get_my_no_teams_eq db acc hacc hteams,
      get_my_no_teams_eq _ acc hacc2 hteams2]
  show _ = Except.ok (paginate ((db.data_sources.filter
      (fun ds => decide (ds.created_by = some acc))).filter
        (fun ds => decide (ds.created_by = some acc)
          && matchesType tf ds && matchesStatus sf ds)) skip limit)
  rw [List.filter_filter]
  congr 2
  refine List.filter_congr (fun ds _ => ?_)
  cases h1 : decide (ds.created_by = some acc) <;>
    cases h2 : matchesType tf ds <;>
    cases h3 : matchesStatus sf ds <;> simp [h1, h2, h3]

/-- Witness for C9: account 1 of `dbNoTeams` sees exactly its own row. -/
theorem get_my_data_sources_no_teams_witness :
    (1 : Nat) ∈ dbNoTeams.accounts
  ∧ get_team_ids_for_account dbNoTeams 1 = []
  ∧ get_my_data_sources dbNoTeams 1 0 20 none none
      = .ok (paginate (dbNoTeams.data_sources.filter
          (fun ds => decide (ds.created_by = some 1)
            && matchesType none ds && matchesStatus none ds)) 0 20) :=
  ⟨by decide, by decide,
   (get_my_data_sources_no_teams dbNoTeams 1 (by decide) (by decide)).1
     0 20 none none⟩

/- ----------------------------------------------------------------
   C2: the sample postgresql create.
   ---------------------------------------------------------------- -/

/-- C2 counterexample: the sample create succeeds, but the single stored
record's config has no `ssl` and no `connect_timeout` key at all — the
controller persists the raw `request.config` (line 52 of the controller)
and discards the validated instance that carried the defaults, so the
stored config does not have `ssl=false` and `connect_timeout=10` filled
in as the claim states. -/
theorem create_does_not_persist_defaults :
    (create_data_source dbEmpty reqSample 1).map
        (fun p => p.2.data_sources.map (fun ds =>
          (configLookup ds.config "ssl",
           configLookup ds.config "connect_timeout")))
      = .ok [(none, none)] := rfl

/-- C2 amended: the sample create succeeds; the stored record's status
is `pending` (the create schema carries no status field at all, so no
client-supplied status can influence it); the stored config equals the
supplied config verbatim — the defaults `ssl=false` and
`connect_timeout=10` appear only in the transient validated instance,
not in the stored config; and a subsequent get returns the config with
password `"********"`. -/
theorem create_postgresql_sample :
    create_data_source dbEmpty reqSample 1
      = .ok (toResponse dsSample, dbAfterSample)
  ∧ dsSample.status = .pending
  ∧ dsSample.config = pgSampleConfig
  ∧ validate_config .postgresql pgSampleConfig
      = some (.pg ⟨"db", 5432, "u", "p", "d", false, none, 10, none⟩)
  ∧ (get_data_source dbAfterSample 0).map
      (fun r => configLookup r.config "password")
      = .ok (some (Value.str "********")) :=
  ⟨rfl, rfl, rfl, rfl, rfl⟩

/- ----------------------------------------------------------------
   C3: partial-update semantics.
   ---------------------------------------------------------------- -/

/-- C3 counterexample: updating the sample record with an explicitly
supplied empty config mapping succeeds but leaves the stored config
untouched — the claim's "a field explicitly supplied with a falsy or
empty value still applies and overwrites" fails, because
`if request.config:` is false for an empty dict. -/
theorem update_empty_config_is_ignored :
    (update_data_source dbAfterSample 0 ⟨none, none, some [], none⟩).map
        (fun p => p.2.data_sources.map (·.config))
      = .ok [pgSampleConfig]
  ∧ pgSampleConfig ≠ [] :=
  ⟨rfl, by decide⟩

theorem applyStatusTeam_type (req : DataSourceUpdate) (ds : DataSource) :
    (applyStatusTeam req ds).type = ds.type := by
  unfold applyStatusTeam applyStatus applyTeam
  cases req.status <;> cases req.team_id <;> rfl

theorem applyStatusTeam_id (req : DataSourceUpdate) (ds : DataSource) :
    (applyStatusTeam req ds).id = ds.id := by
  unfold applyStatusTeam applyStatus applyTeam
  cases req.status <;> cases req.team_id <;> rfl

theorem applyStatusTeam_created_by (req : DataSourceUpdate)
    (ds : DataSource) :
    (applyStatusTeam req ds).created_by = ds.created_by := by
  unfold applyStatusTeam applyStatus applyTeam
  cases req.status <;> cases req.team_id <;> rfl

theorem applyStatusTeam_title (req : DataSourceUpdate) (ds : DataSource) :
    (applyStatusTeam req ds).title = ds.title := by
  unfold applyStatusTeam applyStatus applyTeam
  cases req.status <;> cases req.team_id <;> rfl

theorem applyStatusTeam_config (req : DataSourceUpdate) (ds : DataSource) :
    (applyStatusTeam req ds).config = ds.config := by
  unfold applyStatusTeam applyStatus applyTeam
  cases req.status <;> cases req.team_id <;> rfl

theorem applyStatusTeam_status_of_none (req : DataSourceUpdate)
    (ds : DataSource) (h : req.status = none) :
    (applyStatusTeam req ds).status = ds.status := by
  unfold applyStatusTeam applyStatus applyTeam
  rw [h]
  cases req.team_id <;> rfl

theorem applyStatusTeam_team_of_none (req : DataSourceUpdate)
    (ds : DataSource) (h : req.team_id = none) :
    (applyStatusTeam req ds).team_id = ds.team_id := by
  unfold applyStatusTeam applyStatus applyTeam
  rw [h]
  cases req.status <;> rfl

theorem updateConfigStep_ok_frame {db : DB} {i : Nat}
    {req : DataSourceUpdate} {ds3 : DataSource}
    {resp : DataSourceResponse} {db' : DB}
    (h : updateConfigStep db i req ds3 = .ok (resp, db')) :
    ∃ ds', resp = toResponse ds' ∧ db' = replaceDataSource db i ds'
      ∧ ds'.id = ds3.id ∧ ds'.created_by = ds3.created_by
      ∧ ds'.type = ds3.type ∧ ds'.title = ds3.title
      ∧ ds'.status = ds3.status ∧ ds'.team_id = ds3.team_id
      ∧ (req.config = none ∨ req.config = some [] →
          ds'.config = ds3.config) := by
  unfold updateConfigStep at h
  split at h
  · rename_i c heqc
    split at h
    · simp only [Except.ok.injEq, Prod.mk.injEq] at h
      exact ⟨ds3, h.1.symm, h.2.symm, rfl, rfl, rfl, rfl, rfl, rfl,
        fun _ => rfl⟩
    · rename_i hcne
      split at h
      · simp only [Except.ok.injEq, Prod.mk.injEq] at h
        refine ⟨{ ds3 with config := c }, h.1.symm, h.2.symm, rfl, rfl,
          rfl, rfl, rfl, rfl, ?_⟩
        rintro (hc | hc)
        · rw [heqc] at hc; cases hc
        · rw [heqc] at hc
          exact absurd (Option.some.inj hc) hcne
      · simp at h
  · simp only [Except.ok.injEq, Prod.mk.injEq] at h
    exact ⟨ds3, h.1.symm, h.2.symm, rfl, rfl, rfl, rfl, rfl, rfl,
      fun _ => rfl⟩

theorem update_ok_frame {db : DB} {i : Nat} {req : DataSourceUpdate}
    {ds0 : DataSource} {resp : DataSourceResponse} {db' : DB}
    (hf : findDataSource db i = some ds0)
    (hok : update_data_source db i req = .ok (resp, db')) :
    ∃ ds', resp = toResponse ds' ∧ db' = replaceDataSource db i ds'
      ∧ ds'.id = ds0.id ∧ ds'.created_by = ds0.created_by
      ∧ ds'.type = ds0.type
      ∧ (req.title = none → ds'.title = ds0.title)
      ∧ (req.status = none → ds'.status = ds0.status)
      ∧ (req.team_id = none → ds'.team_id = ds0.team_id)
      ∧ (req.config = none ∨ req.config = some [] →
          ds'.config = ds0.config) := by
  unfold update_data_source at hok
  split at hok
  · simp at hok
  · rename_i ds1 heq
    rw [hf] at heq
    obtain rfl : ds1 = ds0 := (Option.some.inj heq).symm
    split at hok
    · rename_i tt htEq
      split at hok
      · split at hok
        · simp at hok
        · obtain ⟨ds', h1, h2, hid, hcb, hty, hti, hst, htm, hcf⟩ :=
            updateConfigStep_ok_frame hok
          refine ⟨ds', h1, h2, ?_, ?_, ?_, ?_, ?_, ?_, ?_⟩
          · rw [hid, applyStatusTeam_id]
          · rw [hcb, applyStatusTeam_created_by]
          · rw [hty, applyStatusTeam_type]
          · intro hnone; rw [htEq] at hnone; cases hnone
          · intro hnone
            rw [hst, applyStatusTeam_status_of_none _ _ hnone]
          · intro hnone
            rw [htm, applyStatusTeam_team_of_none _ _ hnone]
          · intro hconf; rw [hcf hconf, applyStatusTeam_config]
      · obtain ⟨ds', h1, h2, hid, hcb, hty, hti, hst, htm, hcf⟩ :=
          updateConfigStep_ok_frame hok
        refine ⟨ds', h1, h2, ?_, ?_, ?_, ?_, ?_, ?_, ?_⟩
        · rw [hid, applyStatusTeam_id]
        · rw [hcb, applyStatusTeam_created_by]
        · rw [hty, applyStatusTeam_type]
        · intro _; rw [hti, applyStatusTeam_title]
        · intro hnone
          rw [hst, applyStatusTeam_status_of_none _ _ hnone]
        · intro hnone
          rw [htm, applyStatusTeam_team_of_none _ _ hnone]
        · intro hconf; rw [hcf hconf, applyStatusTeam_config]
    · obtain ⟨ds', h1, h2, hid, hcb, hty, hti, hst, htm, hcf⟩ :=
        updateConfigStep_ok_frame hok
      refine ⟨ds', h1, h2, ?_, ?_, ?_, ?_, ?_, ?_, ?_⟩
      · rw [hid, applyStatusTeam_id]
      · rw [hcb, applyStatusTeam_created_by]
      · rw [hty, applyStatusTeam_type]
      · intro _; rw [hti, applyStatusTeam_title]
      · intro hnone
        rw [hst, applyStatusTeam_status_of_none _ _ hnone]
      · intro hnone
        rw [htm, applyStatusTeam_team_of_none _ _ hnone]
      · intro hconf; rw [hcf hconf, applyStatusTeam_config]

/-- C3 amended: for every existing record and every update request, a
field absent from the request leaves the existing stored value of that
field untouched (and the type is never touched), a status-only update
changes only the status; but falsy or empty supplied values do not
apply — an explicitly supplied empty config mapping is treated exactly
like an omitted config (and a JSON-null team id is indistinguishable
from an omitted one at the schema, so it cannot unset the stored team)
— the code does not distinguish "field omitted" from "field supplied as
empty". -/
theorem update_partial_semantics :
    (∀ (db : DB) (i : Nat) (req : DataSourceUpdate) (ds0 : DataSource)
        (resp : DataSourceResponse) (db' : DB),
        findDataSource db i = some ds0 →
        update_data_source db i req = .ok (resp, db') →
        ∃ ds', resp = toResponse ds' ∧ db' = replaceDataSource db i ds'
          ∧ ds'.id = ds0.id ∧ ds'.created_by = ds0.created_by
          ∧ ds'.type = ds0.type
          ∧ (req.title = none → ds'.title = ds0.title)
          ∧ (req.status = none → ds'.status = ds0.status)
          ∧ (req.team_id = none → ds'.team_id = ds0.team_id)
          ∧ (req.config = none ∨ req.config = some [] →
              ds'.config = ds0.config))
  ∧ (∀ (db : DB) (i : Nat) (s : DataSourceStatus) (ds0 : DataSource),
        findDataSource db i = some ds0 →
          update_data_source db i ⟨none, some s, none, none⟩
            = .ok (toResponse { ds0 with status := s },
                   replaceDataSource db i { ds0 with status := s }))
  ∧ (∀ (db : DB) (i : Nat) (req : DataSourceUpdate),
        req.config = some [] →
          update_data_source db i req
            = update_data_source db i
                ⟨req.title, req.status, none, req.team_id⟩)
  ∧ (∀ (db : DB) (i : Nat) (ds0 : DataSource),
        findDataSource db i = some ds0 →
          update_data_source db i ⟨none, none, none, none⟩
            = .ok (toResponse ds0, replaceDataSource db i ds0)) := by
  refine ⟨fun db i req ds0 resp db' hf hok => update_ok_frame hf hok,
    fun db i s ds0 h => ?_, fun db i req hc => ?_,
    fun db i ds0 h => ?_⟩
  · simp [update_data_source, h, updateConfigStep, applyStatusTeam,
      applyStatus, applyTeam]
  · obtain ⟨t, s, c, tid⟩ := req
    have hc' : c = some [] := hc
    subst hc'
    have e : ∀ ds : DataSource,
        applyStatusTeam ⟨t, s, some [], tid⟩ ds
          = applyStatusTeam ⟨t, s, none, tid⟩ ds := fun ds => by
      unfold applyStatusTeam applyStatus applyTeam
      cases s <;> cases tid <;> rfl
    unfold update_data_source
    cases hf : findDataSource db i with
    | none => rfl
    | some ds0 =>
      cases t with
      | none => simp [updateConfigStep, e]
      | some tt =>
        by_cases h1 : tt ≠ "" ∧ tt ≠ ds0.title
        · by_cases h2 : titleExists db tt <;>
            simp [h1, h2, updateConfigStep, e]
        · simp [h1, updateConfigStep, e]
  · simp [update_data_source, h, updateConfigStep, applyStatusTeam,
      applyStatus, applyTeam]

/-- Witness for C3 at the sample store: the general frame property at a
status-only update, the status-only equation, and an empty-config
update. -/
theorem update_partial_semantics_witness :
    findDataSource dbAfterSample 0 = some dsSample
  ∧ update_data_source dbAfterSample 0 ⟨none, some .active, none, none⟩
      = .ok (toResponse { dsSample with status := .active },
             replaceDataSource dbAfterSample 0
               { dsSample with status := .active })
  ∧ (∃ ds', toResponse { dsSample with status := DataSourceStatus.active }
        = toResponse ds'
      ∧ ds'.title = dsSample.title ∧ ds'.type = dsSample.type
      ∧ ds'.config = dsSample.config ∧ ds'.team_id = dsSample.team_id)
  ∧ update_data_source dbAfterSample 0 ⟨none, none, some [], none⟩
      = update_data_source dbAfterSample 0 ⟨none, none, none, none⟩ := by
  refine ⟨rfl,
    update_partial_semantics.2.1 dbAfterSample 0 .active dsSample rfl, ?_,
    update_partial_semantics.2.2.1 dbAfterSample 0
      ⟨none, none, some [], none⟩ rfl⟩
  obtain ⟨ds', h1, h2, hid, hcb, hty, hti, hst, htm, hcf⟩ :=
    update_partial_semantics.1 dbAfterSample 0
      ⟨none, some .active, none, none⟩ dsSample
      (toResponse { dsSample with status := DataSourceStatus.active })
      (replaceDataSource dbAfterSample 0
        { dsSample with status := DataSourceStatus.active })
      rfl rfl
  exact ⟨ds', h1, hti rfl, hty, hcf (Or.inl rfl), htm rfl⟩

/- ----------------------------------------------------------------
   C4: invalid configs are rejected before any write.
   ---------------------------------------------------------------- -/

theorem updateConfigStep_invalid {db : DB} {i : Nat}
    {req : DataSourceUpdate} {ds3 : DataSource} {c : Config}
    (hc : req.config = some c) (hne : c ≠ [])
    (hv : validate_config ds3.type c = none) :
    updateConfigStep db i req ds3 = .error .validation := by
  unfold updateConfigStep
  rw [hc]
  simp [hne, hv]

/-- C4 counterexample: an update explicitly supplying the empty config
mapping — which fails validation against the record's type — does not
fail: the `if request.config:` truthiness guard skips the empty mapping
entirely, and the update succeeds (here applying the status change), so
"for every update request that supplies a config failing validation the
operation fails" is refuted at the empty config. -/
theorem update_invalid_empty_config_succeeds :
    validate_config dsSample.type [] = none
  ∧ update_data_source dbAfterSample 0 ⟨none, some .active, some [], none⟩
      = .ok (toResponse { dsSample with status := DataSourceStatus.active },
             replaceDataSource dbAfterSample 0
               { dsSample with status := DataSourceStatus.active }) :=
  ⟨rfl, rfl⟩

/-- C4 amended: a *non-empty* config failing validation against the
record's existing type is rejected with the validation failure and
nothing is written, even when the request also carries a valid new
title, status or team id (an explicitly supplied empty config mapping is
instead skipped by the truthiness guard, so it is ignored rather than
rejected); a create whose config fails validation persists nothing. -/
theorem invalid_config_rejected_before_write :
    (∀ (db : DB) (i : Nat) (req : DataSourceUpdate) (ds0 : DataSource)
        (c : Config),
        findDataSource db i = some ds0 →
        req.config = some c → c ≠ [] →
        validate_config ds0.type c = none →
        (∀ t, req.title = some t → titleExists db t = false) →
        update_data_source db i req = .error .validation)
  ∧ (∀ (db : DB) (req : DataSourceCreate) (uid : Nat),
        validate_config req.type req.config = none →
        titleExists db req.title = false →
        create_data_source db req uid = .error .validation) := by
  refine ⟨fun db i req ds0 c hf hc hne hv htitle => ?_,
    fun db req uid hv ht => ?_⟩
  · obtain ⟨t, s, cc, tid⟩ := req
    have hc' : cc = some c := hc
    subst hc'
    have hvt : ∀ ds1 : DataSource, ds1.type = ds0.type →
        updateConfigStep db i ⟨t, s, some c, tid⟩
          (applyStatusTeam ⟨t, s, some c, tid⟩ ds1) = .error .validation := by
      intro ds1 hty
      refine updateConfigStep_invalid rfl hne ?_
      rw [applyStatusTeam_type, hty]
      exact hv
    cases t with
    | none => simp [update_data_source, hf, hvt ds0 rfl]
    | some tt =>
      by_cases h1 : tt ≠ "" ∧ tt ≠ ds0.title
      · have h2 : titleExists db tt = false := htitle tt rfl
        simp [update_data_source, hf, h1, h2,
          hvt { ds0 with title := tt } rfl]
      · simp [update_data_source, hf, h1, hvt ds0 rfl]
  · unfold create_data_source
    simp [ht, hv]

/-- Witness for C4: a request renaming the sample record while supplying
a non-empty invalid config fails with validation, as does a create with
an invalid (empty) config. -/
theorem invalid_config_rejected_before_write_witness :
    findDataSource dbAfterSample 0 = some dsSample
  ∧ validate_config dsSample.type [("host", Value.str "h")] = none
  ∧ update_data_source dbAfterSample 0
      ⟨some "renamed", some .active, some [("host", Value.str "h")], some 5⟩
      = .error .validation
  ∧ create_data_source dbAfterSample ⟨"other", .oracle, [], none⟩ 1
      = .error .validation :=
  ⟨rfl, rfl,
   invalid_config_rejected_before_write.1 dbAfterSample 0
     ⟨some "renamed", some .active, some [("host", Value.str "h")], some 5⟩
     dsSample [("host", Value.str "h")] rfl rfl (by decide) rfl
     (fun t ht => by
        have he : t = "renamed" := (Option.some.inj ht).symm
        subst he
        rfl),
   invalid_config_rejected_before_write.2 dbAfterSample
     ⟨"other", .oracle, [], none⟩ 1 rfl rfl⟩

/- ----------------------------------------------------------------
   C5: outward responses mask the password.
   ---------------------------------------------------------------- -/

theorem toResponse_password (ds : DataSource) (v : Value)
    (h : configLookup (toResponse ds).config "password" = some v) :
    v = Value.str "********" := by
  have hc : (toResponse ds).config = mask_config_password ds.config := rfl
  rw [hc] at h
  cases hp : configLookup ds.config "password" with
  | none =>
    rw [mask_of_no_password hp, hp] at h
    cases h
  | some w =>
    rw [mask_lookup_password hp] at h
    exact (Option.some.inj h).symm

theorem create_ok_resp {db : DB} {req : DataSourceCreate} {uid : Nat}
    {resp : DataSourceResponse} {db' : DB}
    (h : create_data_source db req uid = .ok (resp, db')) :
    ∃ ds, resp = toResponse ds := by
  unfold create_data_source at h
  by_cases ht : titleExists db req.title
  · simp [ht] at h
  · by_cases hv : (validate_config req.type req.config).isSome
    · simp [ht, hv] at h
      exact ⟨_, h.1.symm⟩
    · simp [ht, hv] at h

theorem get_ok_resp {db : DB} {i : Nat} {resp : DataSourceResponse}
    (h : get_data_source db i = .ok resp) :
    ∃ ds, resp = toResponse ds := by
  unfold get_data_source at h
  cases hf : findDataSource db i with
  | none => rw [hf] at h; cases h
  | some ds => rw [hf] at h; exact ⟨ds, (Except.ok.inj h).symm⟩

theorem updateConfigStep_ok_resp {db : DB} {i : Nat}
    {req : DataSourceUpdate} {ds3 : DataSource}
    {resp : DataSourceResponse} {db' : DB}
    (h : updateConfigStep db i req ds3 = .ok (resp, db')) :
    ∃ ds, resp = toResponse ds := by
  unfold updateConfigStep at h
  split at h
  · split at h
    · simp only [Except.ok.injEq, Prod.mk.injEq] at h
      exact ⟨_, h.1.symm⟩
    · split at h
      · simp only [Except.ok.injEq, Prod.mk.injEq] at h
        exact ⟨_, h.1.symm⟩
      · simp at h
  · simp only [Except.ok.injEq, Prod.mk.injEq] at h
    exact ⟨_, h.1.symm⟩

theorem update_ok_resp {db : DB} {i : Nat} {req : DataSourceUpdate}
    {resp : DataSourceResponse} {db' : DB}
    (h : update_data_source db i req = .ok (resp, db')) :
    ∃ ds, resp = toResponse ds := by
  unfold update_data_source at h
  split at h
  · simp at h
  · split at h
    · split at h
      · split at h
        · simp at h
        · exact updateConfigStep_ok_resp h
      · exact updateConfigStep_ok_resp h
    · exact updateConfigStep_ok_resp h

/-- C5 counterexample: a record whose stored password is itself the mask
string: the get response's config then contains exactly the stored
password value, refuting "no response of any of these operations
contains the stored password value" as universally stated. -/
theorem response_contains_stored_mask_password :
    configLookup dsMaskedPwd.config "password" = some (Value.str "********")
  ∧ (get_data_source dbMaskedPwd 7).map
      (fun r => configLookup r.config "password")
      = .ok (configLookup dsMaskedPwd.config "password") :=
  ⟨rfl, rfl⟩

/-- C5 amended: every config-bearing outward response (create, get,
update) carries a config whose `password` key, when present, maps to the
fixed mask `"********"` — so a stored password value can only ever
appear in a response when the stored password is itself the mask string;
delete returns no record and list rows (all five scoped variants
included) carry no config field at all. -/
theorem responses_mask_password :
    (∀ (db : DB) (req : DataSourceCreate) (uid : Nat)
        (resp : DataSourceResponse) (db' : DB) (v : Value),
        create_data_source db req uid = .ok (resp, db') →
        configLookup resp.config "password" = some v →
        v = Value.str "********")
  ∧ (∀ (db : DB) (i : Nat) (resp : DataSourceResponse) (v : Value),
        get_data_source db i = .ok resp →
        configLookup resp.config "password" = some v →
        v = Value.str "********")
  ∧ (∀ (db : DB) (i : Nat) (req : DataSourceUpdate)
        (resp : DataSourceResponse) (db' : DB) (v : Value),
        update_data_source db i req = .ok (resp, db') →
        configLookup resp.config "password" = some v →
        v = Value.str "********") := by
  refine ⟨fun db req uid resp db' v h hp => ?_,
    fun db i resp v h hp => ?_,
    fun db i req resp db' v h hp => ?_⟩
  · obtain ⟨ds, rfl⟩ := create_ok_resp h
    exact toResponse_password ds v hp
  · obtain ⟨ds, rfl⟩ := get_ok_resp h
    exact toResponse_password ds v hp
  · obtain ⟨ds, rfl⟩ := update_ok_resp h
    exact toResponse_password ds v hp

/-- Witness for C5: the get of the sample record yields the masked
password. -/
theorem responses_mask_password_witness :
    get_data_source dbAfterSample 0 = .ok (toResponse dsSample)
  ∧ configLookup (toResponse dsSample).config "password"
      = some (Value.str "********")
  ∧ Value.str "********" = Value.str "********" :=
  ⟨rfl, rfl,
   responses_mask_password.2.1 dbAfterSample 0 (toResponse dsSample)
     (Value.str "********") rfl rfl⟩

/- ----------------------------------------------------------------
   C7: config validation — required fields, bounds, defaults, tags.
   ---------------------------------------------------------------- -/

theorem reqStr_none {c : Config} {k : String} (h : configLookup c k = none)
    (lo hi : Nat) : reqStr c k lo hi = none := by
  simp [reqStr, h]

theorem reqStrMin_none {c : Config} {k : String}
    (h : configLookup c k = none) (lo : Nat) : reqStrMin c k lo = none := by
  simp [reqStrMin, h]

theorem reqInt_none {c : Config} {k : String} (h : configLookup c k = none)
    (lo hi : Int) : reqInt c k lo hi = none := by
  simp [reqInt, h]

set_option maxHeartbeats 1600000 in
theorem parsePostgreSQLConfig_missing (c : Config) (k : String)
    (hk : k ∈ requiredKeys .postgresql) (h : configLookup c k = none) :
    parsePostgreSQLConfig c = none := by
  simp only [requiredKeys, List.mem_cons, List.not_mem_nil, or_false] at hk
  rcases hk with rfl | rfl | rfl | rfl | rfl
  · simp [parsePostgreSQLConfig, reqStr_none h]
  · cases h1 : reqStr c "host" 1 255 <;>
      simp [parsePostgreSQLConfig, h1, reqInt_none h]
  · cases h1 : reqStr c "host" 1 255 <;>
      cases h2 : reqInt c "port" 1 65535 <;>
        simp [parsePostgreSQLConfig, h1, h2, reqStr_none h]
  · cases h1 : reqStr c "host" 1 255 <;>
      cases h2 : reqInt c "port" 1 65535 <;>
        cases h3 : reqStr c "username" 1 255 <;>
          simp [parsePostgreSQLConfig, h1, h2, h3, reqStrMin_none h]
  · cases h1 : reqStr c "host" 1 255 <;>
      cases h2 : reqInt c "port" 1 65535 <;>
        cases h3 : reqStr c "username" 1 255 <;>
          cases h4 : reqStrMin c "password" 1 <;>
            simp [parsePostgreSQLConfig, h1, h2, h3, h4, reqStr_none h]

set_option maxHeartbeats 1600000 in
theorem parseMySQLConfig_missing (c : Config) (k : String)
    (hk : k ∈ requiredKeys .mysql) (h : configLookup c k = none) :
    parseMySQLConfig c = none := by
  simp only [requiredKeys, List.mem_cons, List.not_mem_nil, or_false] at hk
  rcases hk with rfl | rfl | rfl | rfl | rfl
  · simp [parseMySQLConfig, reqStr_none h]
  · cases h1 : reqStr c "host" 1 255 <;>
      simp [parseMySQLConfig, h1, reqInt_none h]
  · cases h1 : reqStr c "host" 1 255 <;>
      cases h2 : reqInt c "port" 1 65535 <;>
        simp [parseMySQLConfig, h1, h2, reqStr_none h]
  · cases h1 : reqStr c "host" 1 255 <;>
      cases h2 : reqInt c "port" 1 65535 <;>
        cases h3 : reqStr c "username" 1 255 <;>
          simp [parseMySQLConfig, h1, h2, h3, reqStrMin_none h]
  · cases h1 : reqStr c "host" 1 255 <;>
      cases h2 : reqInt c "port" 1 65535 <;>
        cases h3 : reqStr c "username" 1 255 <;>
          cases h4 : reqStrMin c "password" 1 <;>
            simp [parseMySQLConfig, h1, h2, h3, h4, reqStr_none h]

set_option maxHeartbeats 1600000 in
theorem parseOracleConfig_missing (c : Config) (k : String)
    (hk : k ∈ requiredKeys .oracle) (h : configLookup c k = none) :
    parseOracleConfig c = none := by
  simp only [requiredKeys, List.mem_cons, List.not_mem_nil, or_false] at hk
  rcases hk with rfl | rfl | rfl | rfl | rfl
  · simp [parseOracleConfig, reqStr_none h]
  · cases h1 : reqStr c "host" 1 255 <;>
      simp [parseOracleConfig, h1, reqInt_none h]
  · cases h1 : reqStr c "host" 1 255 <;>
      cases h2 : reqInt c "port" 1 65535 <;>
        simp [parseOracleConfig, h1, h2, reqStr_none h]
  · cases h1 : reqStr c "host" 1 255 <;>
      cases h2 : reqInt c "port" 1 65535 <;>
        cases h3 : reqStr c "username" 1 255 <;>
          simp [parseOracleConfig, h1, h2, h3, reqStrMin_none h]
  · cases h1 : reqStr c "host" 1 255 <;>
      cases h2 : reqInt c "port" 1 65535 <;>
        cases h3 : reqStr c "username" 1 255 <;>
          cases h4 : reqStrMin c "password" 1 <;>
            simp [parseOracleConfig, h1, h2, h3, h4, reqStr_none h]

theorem parsePostgreSQLConfig_required_only
    (host username password database : String) (port : Int)
    (hh1 : 1 ≤ host.length) (hh2 : host.length ≤ 255)
    (hp1 : 1 ≤ port) (hp2 : port ≤ 65535)
    (hu1 : 1 ≤ username.length) (hu2 : username.length ≤ 255)
    (hw1 : 1 ≤ password.length)
    (hd1 : 1 ≤ database.length) (hd2 : database.length ≤ 255) :
    parsePostgreSQLConfig (requiredOnlyCommon host username password
        database port)
      = some ⟨host, port, username, password, database,
              false, none, 10, none⟩ := by
  have c1 : configLookup (requiredOnlyCommon host username password
      database port) "host" = some (.str host) := rfl
  have c2 : configLookup (requiredOnlyCommon host username password
      database port) "port" = some (.int port) := rfl
  have c3 : configLookup (requiredOnlyCommon host username password
      database port) "username" = some (.str username) := rfl
  have c4 : configLookup (requiredOnlyCommon host username password
      database port) "password" = some (.str password) := rfl
  have c5 : configLookup (requiredOnlyCommon host username password
      database port) "database" = some (.str database) := rfl
  have c6 : configLookup (requiredOnlyCommon host username password
      database port) "ssl" = none := rfl
  have c7 : configLookup (requiredOnlyCommon host username password
      database port) "ssl_mode" = none := rfl
  have c8 : configLookup (requiredOnlyCommon host username password
      database port) "connect_timeout" = none := rfl
  have c9 : configLookup (requiredOnlyCommon host username password
      database port) "application_name" = none := rfl
  simp [parsePostgreSQLConfig, reqStr, reqInt, reqStrMin, optBool,
    optStrEnum, optInt, optStrMax, c1, c2, c3, c4, c5, c6, c7, c8, c9,
    hh1, hh2, hp1, hp2, hu1, hu2, hw1, hd1, hd2]

theorem parseMySQLConfig_required_only
    (host username password database : String) (port : Int)
    (hh1 : 1 ≤ host.length) (hh2 : host.length ≤ 255)
    (hp1 : 1 ≤ port) (hp2 : port ≤ 65535)
    (hu1 : 1 ≤ username.length) (hu2 : username.length ≤ 255)
    (hw1 : 1 ≤ password.length)
    (hd1 : 1 ≤ database.length) (hd2 : database.length ≤ 255) :
    parseMySQLConfig (requiredOnlyCommon host username password
        database port)
      = some ⟨host, port, username, password, database,
              false, "utf8mb4", 10⟩ := by
  have c1 : configLookup (requiredOnlyCommon host username password
      database port) "host" = some (.str host) := rfl
  have c2 : configLookup (requiredOnlyCommon host username password
      database port) "port" = some (.int port) := rfl
  have c3 : configLookup (requiredOnlyCommon host username password
      database port) "username" = some (.str username) := rfl
  have c4 : configLookup (requiredOnlyCommon host username password
      database port) "password" = some (.str password) := rfl
  have c5 : configLookup (requiredOnlyCommon host username password
      database port) "database" = some (.str database) := rfl
  have c6 : configLookup (requiredOnlyCommon host username password
      database port) "ssl" = none := rfl
  have c7 : configLookup (requiredOnlyCommon host username password
      database port) "charset" = none := rfl
  have c8 : configLookup (requiredOnlyCommon host username password
      database port) "connect_timeout" = none := rfl
  simp [parseMySQLConfig, reqStr, reqInt, reqStrMin, optBool,
    optStrDefault, optInt, c1, c2, c3, c4, c5, c6, c7, c8,
    hh1, hh2, hp1, hp2, hu1, hu2, hw1, hd1, hd2]

theorem parseOracleConfig_required_only
    (host username password service_name : String) (port : Int)
    (hh1 : 1 ≤ host.length) (hh2 : host.length ≤ 255)
    (hp1 : 1 ≤ port) (hp2 : port ≤ 65535)
    (hu1 : 1 ≤ username.length) (hu2 : username.length ≤ 255)
    (hw1 : 1 ≤ password.length)
    (hs1 : 1 ≤ service_name.length) (hs2 : service_name.length ≤ 255) :
    parseOracleConfig (requiredOnlyOracle host username password
        service_name port)
      = some ⟨host, port, username, password, service_name⟩ := by
  have c1 : configLookup (requiredOnlyOracle host username password
      service_name port) "host" = some (.str host) := rfl
  have c2 : configLookup (requiredOnlyOracle host username password
      service_name port) "port" = some (.int port) := rfl
  have c3 : configLookup (requiredOnlyOracle host username password
      service_name port) "username" = some (.str username) := rfl
  have c4 : configLookup (requiredOnlyOracle host username password
      service_name port) "password" = some (.str password) := rfl
  have c5 : configLookup (requiredOnlyOracle host username password
      service_name port) "service_name" = some (.str service_name) := rfl
  simp [parseOracleConfig, reqStr, reqInt, reqStrMin,
    c1, c2, c3, c4, c5, hh1, hh2, hp1, hp2, hu1, hu2, hw1, hs1, hs2]

theorem reqStr_some {c : Config} {k s : String} {lo hi : Nat}
    (h : configLookup c k = some (.str s))
    (h1 : lo ≤ s.length) (h2 : s.length ≤ hi) :
    reqStr c k lo hi = some s := by
  simp [reqStr, h, h1, h2]

theorem reqStrMin_some {c : Config} {k s : String} {lo : Nat}
    (h : configLookup c k = some (.str s)) (h1 : lo ≤ s.length) :
    reqStrMin c k lo = some s := by
  simp [reqStrMin, h, h1]

theorem reqInt_some {c : Config} {k : String} {n lo hi : Int}
    (h : configLookup c k = some (.int n)) (h1 : lo ≤ n) (h2 : n ≤ hi) :
    reqInt c k lo hi = some n := by
  simp [reqInt, h, h1, h2]

theorem optBool_spec {c : Config} {k : String} {d b : Bool}
    (h : configLookup c k = none ∧ b = d ∨
      configLookup c k = some (.bool b)) :
    optBool c k d = some b := by
  rcases h with ⟨h, rfl⟩ | h
  · simp [optBool, h]
  · simp [optBool, h]

theorem optStrEnum_spec {c : Config} {k : String} {allowed : List String}
    {mo : Option String}
    (h : configLookup c k = none ∧ mo = none ∨
      ∃ m, mo = some m ∧ configLookup c k = some (.str m) ∧ m ∈ allowed) :
    optStrEnum c k allowed = some mo := by
  rcases h with ⟨h, rfl⟩ | ⟨m, rfl, h, hm⟩
  · simp [optStrEnum, h]
  · simp [optStrEnum, h, hm]

theorem optInt_spec {c : Config} {k : String} {d lo hi n : Int}
    (h : configLookup c k = none ∧ n = d ∨
      configLookup c k = some (.int n) ∧ lo ≤ n ∧ n ≤ hi) :
    optInt c k d lo hi = some n := by
  rcases h with ⟨h, rfl⟩ | ⟨h, h1, h2⟩
  · simp [optInt, h]
  · simp [optInt, h, h1, h2]

theorem optStrMax_spec {c : Config} {k : String} {hi : Nat}
    {ao : Option String}
    (h : configLookup c k = none ∧ ao = none ∨
      ∃ a, ao = some a ∧ configLookup c k = some (.str a)
        ∧ a.length ≤ hi) :
    optStrMax c k hi = some ao := by
  rcases h with ⟨h, rfl⟩ | ⟨a, rfl, h, ha⟩
  · simp [optStrMax, h]
  · simp [optStrMax, h, ha]

theorem optStrDefault_spec {c : Config} {k d s : String} {hi : Nat}
    (h : configLookup c k = none ∧ s = d ∨
      configLookup c k = some (.str s) ∧ s.length ≤ hi) :
    optStrDefault c k d hi = some s := by
  rcases h with ⟨h, rfl⟩ | ⟨h, hs⟩
  · simp [optStrDefault, h]
  · simp [optStrDefault, h, hs]

theorem parsePostgreSQLConfig_accepts (c : Config)
    (host username password database : String) (port : Int)
    (ssl : Bool) (ssl_mode : Option String) (timeout : Int)
    (app_name : Option String)
    (hhost : configLookup c "host" = some (.str host))
    (hh1 : 1 ≤ host.length) (hh2 : host.length ≤ 255)
    (hport : configLookup c "port" = some (.int port))
    (hp1 : 1 ≤ port) (hp2 : port ≤ 65535)
    (huser : configLookup c "username" = some (.str username))
    (hu1 : 1 ≤ username.length) (hu2 : username.length ≤ 255)
    (hpass : configLookup c "password" = some (.str password))
    (hw1 : 1 ≤ password.length)
    (hdb : configLookup c "database" = some (.str database))
    (hd1 : 1 ≤ database.length) (hd2 : database.length ≤ 255)
    (hssl : configLookup c "ssl" = none ∧ ssl = false ∨
      configLookup c "ssl" = some (.bool ssl))
    (hmode : configLookup c "ssl_mode" = none ∧ ssl_mode = none ∨
      ∃ m, ssl_mode = some m ∧ configLookup c "ssl_mode" = some (.str m)
        ∧ m ∈ sslModes)
    (hto : configLookup c "connect_timeout" = none ∧ timeout = 10 ∨
      configLookup c "connect_timeout" = some (.int timeout)
        ∧ 1 ≤ timeout ∧ timeout ≤ 300)
    (happ : configLookup c "application_name" = none ∧ app_name = none ∨
      ∃ a, app_name = some a
        ∧ configLookup c "application_name" = some (.str a)
        ∧ a.length ≤ 255) :
    parsePostgreSQLConfig c
      = some ⟨host, port, username, password, database, ssl, ssl_mode,
              timeout, app_name⟩ := by
  simp [parsePostgreSQLConfig, reqStr_some hhost hh1 hh2,
    reqInt_some hport hp1 hp2, reqStr_some huser hu1 hu2,
    reqStrMin_some hpass hw1, reqStr_some hdb hd1 hd2,
    optBool_spec hssl, optStrEnum_spec hmode, optInt_spec hto,
    optStrMax_spec happ]

theorem parseMySQLConfig_accepts (c : Config)
    (host username password database charset : String) (port : Int)
    (ssl : Bool) (timeout : Int)
    (hhost : configLookup c "host" = some (.str host))
    (hh1 : 1 ≤ host.length) (hh2 : host.length ≤ 255)
    (hport : configLookup c "port" = some (.int port))
    (hp1 : 1 ≤ port) (hp2 : port ≤ 65535)
    (huser : configLookup c "username" = some (.str username))
    (hu1 : 1 ≤ username.length) (hu2 : username.length ≤ 255)
    (hpass : configLookup c "password" = some (.str password))
    (hw1 : 1 ≤ password.length)
    (hdb : configLookup c "database" = some (.str database))
    (hd1 : 1 ≤ database.length) (hd2 : database.length ≤ 255)
    (hssl : configLookup c "ssl" = none ∧ ssl = false ∨
      configLookup c "ssl" = some (.bool ssl))
    (hcharset : configLookup c "charset" = none ∧ charset = "utf8mb4" ∨
      configLookup c "charset" = some (.str charset)
        ∧ charset.length ≤ 50)
    (hto : configLookup c "connect_timeout" = none ∧ timeout = 10 ∨
      configLookup c "connect_timeout" = some (.int timeout)
        ∧ 1 ≤ timeout ∧ timeout ≤ 300) :
    parseMySQLConfig c
      = some ⟨host, port, username, password, database, ssl, charset,
              timeout⟩ := by
  simp [parseMySQLConfig, reqStr_some hhost hh1 hh2,
    reqInt_some hport hp1 hp2, reqStr_some huser hu1 hu2,
    reqStrMin_some hpass hw1, reqStr_some hdb hd1 hd2,
    optBool_spec hssl, optStrDefault_spec hcharset, optInt_spec hto]

theorem parseOracleConfig_accepts (c : Config)
    (host username password service_name : String) (port : Int)
    (hhost : configLookup c "host" = some (.str host))
    (hh1 : 1 ≤ host.length) (hh2 : host.length ≤ 255)
    (hport : configLookup c "port" = some (.int port))
    (hp1 : 1 ≤ port) (hp2 : port ≤ 65535)
    (huser : configLookup c "username" = some (.str username))
    (hu1 : 1 ≤ username.length) (hu2 : username.length ≤ 255)
    (hpass : configLookup c "password" = some (.str password))
    (hw1 : 1 ≤ password.length)
    (hsvc : configLookup c "service_name" = some (.str service_name))
    (hs1 : 1 ≤ service_name.length) (hs2 : service_name.length ≤ 255) :
    parseOracleConfig c
      = some ⟨host, port, username, password, service_name⟩ := by
  simp [parseOracleConfig, reqStr_some hhost hh1 hh2,
    reqInt_some hport hp1 hp2, reqStr_some huser hu1 hu2,
    reqStrMin_some hpass hw1, reqStr_some hsvc hs1 hs2]

/-- C7: for every supported type, validation rejects a config missing
any required field and rejects any unknown type tag; any config mapping
whose required fields are present with in-bounds values and whose
optional fields are each absent or supplied in bounds (port 1–65535,
timeout 1–300, `ssl_mode` from the fixed set, `charset` at most 50,
`application_name` at most 255) is accepted, the validated result
carrying each supplied optional value and the per-type default
(`ssl=false`, `ssl_mode=none`, `connect_timeout=10`,
`charset="utf8mb4"`, `application_name=none`) for each absent one. -/
theorem config_validation_spec :
    (∀ (s : String) (c : Config), s ∉ supportedTypeTags →
        validateConfigStr s c = none)
  ∧ (∀ (t : DataSourceType) (c : Config) (k : String),
        k ∈ requiredKeys t → configLookup c k = none →
        validate_config t c = none)
  ∧ (∀ (c : Config) (host username password database : String)
        (port : Int) (ssl : Bool) (ssl_mode : Option String)
        (timeout : Int) (app_name : Option String),
        configLookup c "host" = some (.str host) →
        1 ≤ host.length → host.length ≤ 255 →
        configLookup c "port" = some (.int port) →
        1 ≤ port → port ≤ 65535 →
        configLookup c "username" = some (.str username) →
        1 ≤ username.length → username.length ≤ 255 →
        configLookup c "password" = some (.str password) →
        1 ≤ password.length →
        configLookup c "database" = some (.str database) →
        1 ≤ database.length → database.length ≤ 255 →
        (configLookup c "ssl" = none ∧ ssl = false ∨
          configLookup c "ssl" = some (.bool ssl)) →
        (configLookup c "ssl_mode" = none ∧ ssl_mode = none ∨
          ∃ m, ssl_mode = some m
            ∧ configLookup c "ssl_mode" = some (.str m) ∧ m ∈ sslModes) →
        (configLookup c "connect_timeout" = none ∧ timeout = 10 ∨
          configLookup c "connect_timeout" = some (.int timeout)
            ∧ 1 ≤ timeout ∧ timeout ≤ 300) →
        (configLookup c "application_name" = none ∧ app_name = none ∨
          ∃ a, app_name = some a
            ∧ configLookup c "application_name" = some (.str a)
            ∧ a.length ≤ 255) →
        validate_config .postgresql c
          = some (.pg ⟨host, port, username, password, database, ssl,
                       ssl_mode, timeout, app_name⟩))
  ∧ (∀ (c : Config) (host username password database charset : String)
        (port : Int) (ssl : Bool) (timeout : Int),
        configLookup c "host" = some (.str host) →
        1 ≤ host.length → host.length ≤ 255 →
        configLookup c "port" = some (.int port) →
        1 ≤ port → port ≤ 65535 →
        configLookup c "username" = some (.str username) →
        1 ≤ username.length → username.length ≤ 255 →
        configLookup c "password" = some (.str password) →
        1 ≤ password.length →
        configLookup c "database" = some (.str database) →
        1 ≤ database.length → database.length ≤ 255 →
        (configLookup c "ssl" = none ∧ ssl = false ∨
          configLookup c "ssl" = some (.bool ssl)) →
        (configLookup c "charset" = none ∧ charset = "utf8mb4" ∨
          configLookup c "charset" = some (.str charset)
            ∧ charset.length ≤ 50) →
        (configLookup c "connect_timeout" = none ∧ timeout = 10 ∨
          configLookup c "connect_timeout" = some (.int timeout)
            ∧ 1 ≤ timeout ∧ timeout ≤ 300) →
        validate_config .mysql c
          = some (.my ⟨host, port, username, password, database, ssl,
                       charset, timeout⟩))
  ∧ (∀ (c : Config) (host username password service_name : String)
        (port : Int),
        configLookup c "host" = some (.str host) →
        1 ≤ host.length → host.length ≤ 255 →
        configLookup c "port" = some (.int port) →
        1 ≤ port → port ≤ 65535 →
        configLookup c "username" = some (.str username) →
        1 ≤ username.length → username.length ≤ 255 →
        configLookup c "password" = some (.str password) →
        1 ≤ password.length →
        configLookup c "service_name" = some (.str service_name) →
        1 ≤ service_name.length → service_name.length ≤ 255 →
        validate_config .oracle c
          = some (.ora ⟨host, port, username, password,
                        service_name⟩)) := by
  refine ⟨fun s c hs => ?_, fun t c k hk h => ?_,
    fun c host username password database port ssl ssl_mode timeout
      app_name hhost hh1 hh2 hport hp1 hp2 huser hu1 hu2 hpass hw1 hdb
      hd1 hd2 hssl hmode hto happ => ?_,
    fun c host username password database charset port ssl timeout hhost
      hh1 hh2 hport hp1 hp2 huser hu1 hu2 hpass hw1 hdb hd1 hd2 hssl
      hcharset hto => ?_,
    fun c host username password service_name port hhost hh1 hh2 hport
      hp1 hp2 huser hu1 hu2 hpass hw1 hsvc hs1 hs2 => ?_⟩
  · simp only [supportedTypeTags, List.mem_cons, List.not_mem_nil,
      or_false, not_or] at hs
    obtain ⟨hp, hm, ho⟩ := hs
    simp [validateConfigStr, parseDataSourceType, hp, hm, ho]
  · cases t with
    | postgresql => simp [validate_config,
        parsePostgreSQLConfig_missing c k hk h]
    | mysql => simp [validate_config, parseMySQLConfig_missing c k hk h]
    | oracle => simp [validate_config, parseOracleConfig_missing c k hk h]
  · simp [validate_config, parsePostgreSQLConfig_accepts c host username
      password database port ssl ssl_mode timeout app_name hhost hh1 hh2
      hport hp1 hp2 huser hu1 hu2 hpass hw1 hdb hd1 hd2 hssl hmode hto
      happ]
  · simp [validate_config, parseMySQLConfig_accepts c host username
      password database charset port ssl timeout hhost hh1 hh2 hport hp1
      hp2 huser hu1 hu2 hpass hw1 hdb hd1 hd2 hssl hcharset hto]
  · simp [validate_config, parseOracleConfig_accepts c host username
      password service_name port hhost hh1 hh2 hport hp1 hp2 huser hu1
      hu2 hpass hw1 hsvc hs1 hs2]

/-- Witness for C7: an unknown tag, a missing `port`, a required-only
postgresql config (all defaults filled), a postgresql and a mysql
config with every optional field supplied in bounds, and an oracle
config carrying an extra key. -/
theorem config_validation_spec_witness :
    validateConfigStr "sqlite" pgSampleConfig = none
  ∧ validate_config .postgresql [("host", Value.str "db")] = none
  ∧ validate_config .postgresql (requiredOnlyCommon "db" "u" "p" "d" 5432)
      = some (.pg ⟨"db", 5432, "u", "p", "d", false, none, 10, none⟩)
  ∧ validate_config .postgresql pgFullConfig
      = some (.pg ⟨"db", 5432, "u", "p", "d", true, some "require", 50,
                   some "app"⟩)
  ∧ validate_config .mysql myFullConfig
      = some (.my ⟨"db", 3306, "u", "p", "d", true, "latin1", 20⟩)
  ∧ validate_config .oracle oraExtraConfig
      = some (.ora ⟨"db", 1521, "u", "p", "orcl"⟩) :=
  ⟨config_validation_spec.1 "sqlite" pgSampleConfig (by decide),
   config_validation_spec.2.1 .postgresql [("host", Value.str "db")]
     "port" (by decide) rfl,
   config_validation_spec.2.2.1 (requiredOnlyCommon "db" "u" "p" "d" 5432)
     "db" "u" "p" "d" 5432 false none 10 none rfl (by decide) (by decide)
     rfl (by decide) (by decide) rfl (by decide) (by decide) rfl
     (by decide) rfl (by decide) (by decide) (Or.inl ⟨rfl, rfl⟩)
     (Or.inl ⟨rfl, rfl⟩) (Or.inl ⟨rfl, rfl⟩) (Or.inl ⟨rfl, rfl⟩),
   config_validation_spec.2.2.1 pgFullConfig "db" "u" "p" "d" 5432 true
     (some "require") 50 (some "app") rfl (by decide) (by decide) rfl
     (by decide) (by decide) rfl (by decide) (by decide) rfl (by decide)
     rfl (by decide) (by decide) (Or.inr rfl)
     (Or.inr ⟨"require", rfl, rfl, by decide⟩)
     (Or.inr ⟨rfl, by decide, by decide⟩)
     (Or.inr ⟨"app", rfl, rfl, by decide⟩),
   config_validation_spec.2.2.2.1 myFullConfig "db" "u" "p" "d" "latin1"
     3306 true 20 rfl (by decide) (by decide) rfl (by decide) (by decide)
     rfl (by decide) (by decide) rfl (by decide) rfl (by decide)
     (by decide) (Or.inr rfl) (Or.inr ⟨rfl, by decide⟩)
     (Or.inr ⟨rfl, by decide, by decide⟩),
   config_validation_spec.2.2.2.2 oraExtraConfig "db" "u" "p" "orcl" 1521
     rfl (by decide) (by decide) rfl (by decide) (by decide) rfl
     (by decide) (by decide) rfl (by decide) rfl (by decide)
     (by decide)⟩

end Kosix
